import Mathlib

/-!
Verification of the subspace core: the append-only action ledger and its
rolling-window counts, the connection state machine, the activity gate,
the cooldown/spacing engine, and the motion/timing generators.

Conventions of the embedding:
- Instants (Go time.Time) are integers counting nanoseconds; durations use
  the same unit. Derived instants that Go computes from the wall clock
  (local midnight, now minus one hour, the retention cutoff) are passed as
  explicit parameters where the Go code computes them inline.
- The persisted store (Go struct Data behind Storage) is an explicit value
  threaded through every operation; the Go maps become association lists
  and the disk write becomes an update of the lastSync field, with an
  injected boolean where a disk write may fail.
- Randomness (rand.Rand) is an explicit parameter: the draw itself for a
  single call, or the Intn function for the generator.
-/

namespace Subspace

/-- Nanoseconds per second, the unit conversion used for durations. -/
def nsPerSecond : Int := 1000000000

/-- Nanoseconds per hour, used by GetActionCountLastHour. -/
def nsPerHour : Int := 3600 * nsPerSecond

/-- The profile lifecycle states of the storage package (Go string constants
StateDiscovered .. StateRejected). -/
inductive ProfileState where
  | discovered
  | requested
  | accepted
  | cooledDown
  | rejected
deriving DecidableEq

/-- Go struct ActionLog: one record of the append-only action ledger. -/
structure ActionLog where
  action : String
  timestamp : Int
  profileID : String
  success : Bool
  error : Option String
deriving DecidableEq

/-- Go struct Profile: a tracked target entity. -/
structure Profile where
  id : String
  name : String
  title : String
  company : String
  profileURL : String
  state : ProfileState
  discoveredAt : Int
  requestedAt : Option Int
  acceptedAt : Option Int
  cooledDownAt : Option Int
  searchQuery : String
  notes : String
deriving DecidableEq

/-- Go struct Message: a record of a sent message. -/
structure Message where
  id : String
  profileID : String
  content : String
  sentAt : Int
  template : String
deriving DecidableEq

/-- Go struct LimitsConfig (config package). -/
structure LimitsConfig where
  connectionsPerDay : Int
  connectionsPerHour : Int
  messagesPerDay : Int
  searchesPerDay : Int
  cooldownMinutes : Int
deriving DecidableEq

/-- The business-hours fields of Go struct StealthConfig (config package). -/
structure StealthConfig where
  businessHoursEnabled : Bool
  businessHoursStart : String
  businessHoursEnd : String
  breakTimeEnabled : Bool
  breakTimeStart : String
  breakTimeEnd : String
deriving DecidableEq

/-- Go struct Data: the complete storage snapshot. The Go maps keyed by id
become association lists. -/
structure Data where
  profiles : List (String × Profile)
  messages : List (String × Message)
  actionLogs : List ActionLog
  lastSync : Int
deriving DecidableEq

/-- The empty storage snapshot that storage.New starts from. -/
def emptyData : Data := ⟨[], [], [], 0⟩

/-- Update-or-append on an association list, the effect of a Go map
assignment m[k] = v. -/
def mapInsert {α : Type} (k : String) (v : α) (m : List (String × α)) :
    List (String × α) :=
  if m.any fun kv => kv.1 == k then
    m.map fun kv => if kv.1 == k then (k, v) else kv
  else m ++ [(k, v)]

/-- Storage.LogAction: appends one record with the current timestamp and
saves (updating lastSync). The Go Error field is set from the passed error. -/
def LogAction (d : Data) (action profileID : String) (success : Bool)
    (errMsg : Option String) (now : Int) : Data :=
  { d with
    actionLogs := d.actionLogs ++ [⟨action, now, profileID, success, errMsg⟩],
    lastSync := now }

/-- Storage.GetActionCountSince: counts records whose Action matches, whose
Success flag is set, and whose Timestamp is strictly after the given instant
(Go Timestamp.After(since)). -/
def GetActionCountSince (d : Data) (action : String) (since : Int) : Int :=
  ((d.actionLogs.filter fun l =>
    l.action == action && l.success && decide (since < l.timestamp)).length : Int)

/-- Storage.GetActionCountToday: the count since local midnight; the Go code
computes startOfDay from time.Now, here it is passed explicitly. -/
def GetActionCountToday (d : Data) (action : String) (startOfDay : Int) : Int :=
  GetActionCountSince d action startOfDay

/-- Storage.GetActionCountLastHour: the count since one hour before now. -/
def GetActionCountLastHour (d : Data) (action : String) (now : Int) : Int :=
  GetActionCountSince d action (now - nsPerHour)

/-- Storage.CleanOldLogs: keeps exactly the records whose timestamp is
strictly after the cutoff (Go Timestamp.After(cutoff)); the cutoff is now
minus the retention horizon. -/
def CleanOldLogs (d : Data) (cutoff now : Int) : Data :=
  { d with
    actionLogs := d.actionLogs.filter fun l => decide (cutoff < l.timestamp),
    lastSync := now }

/-- Storage.SaveProfile: writes the profile into the map and saves. -/
def SaveProfile (d : Data) (p : Profile) (now : Int) : Data :=
  { d with profiles := mapInsert p.id p d.profiles, lastSync := now }

/-- Storage.SaveMessage: writes the message into the map and saves. -/
def SaveMessage (d : Data) (m : Message) (now : Int) : Data :=
  { d with messages := mapInsert m.id m d.messages, lastSync := now }

/-- Storage.GetProfilesByState: all profiles currently in the given state. -/
def GetProfilesByState (d : Data) (st : ProfileState) : List Profile :=
  (d.profiles.map fun kv => kv.2).filter fun p => decide (p.state = st)

/-- Storage.GetMessagesByProfile: all messages sent to the given profile. -/
def GetMessagesByProfile (d : Data) (profileID : String) : List Message :=
  (d.messages.map fun kv => kv.2).filter fun m => m.profileID == profileID

/-- Connector.CanSendMore: true iff both connection counts are strictly
below their configured limits. -/
def CanSendMore (d : Data) (limits : LimitsConfig) (startOfDay now : Int) : Bool :=
  decide (GetActionCountToday d "connection" startOfDay < limits.connectionsPerDay) &&
  decide (GetActionCountLastHour d "connection" now < limits.connectionsPerHour)

/-- Connector.SendConnectionRequest. The browser interaction steps of the Go
code are stealth pacing calls that cannot fail; the only fallible step is the
SaveProfile disk write, injected here as the saveFails flag. The profile has
its state and requested timestamp set, and the map updated, before that
write; on write failure an error is returned with no ledger record, on
success a successful connection record is appended. Returns the resulting
store, the (mutated) profile, and the error if any. -/
def SendConnectionRequest (d : Data) (profile : Profile) (now : Int)
    (saveFails : Bool) : Data × Profile × Option String :=
  let p2 := { profile with state := ProfileState.requested, requestedAt := some now }
  let d2 := SaveProfile d p2 now
  if saveFails then
    (d2, p2, some "failed to update profile state")
  else
    (LogAction d2 "connection" p2.id true none now, p2, none)

/-- The candidate loop of Connector.ProcessDailyConnections: stops once sent
reaches maxToSend; on a send error it appends a failed connection record and
continues with the next candidate; on success it increments sent. The
saveFails function injects, per profile id, whether the SaveProfile disk
write fails. -/
def processCandidates (maxToSend now : Int) (saveFails : String → Bool) :
    Data → List Profile → Int → Data × Int
  | d, [], sent => (d, sent)
  | d, p :: rest, sent =>
    if sent ≥ maxToSend then (d, sent)
    else
      match SendConnectionRequest d p now (saveFails p.id) with
      | (d2, _, some e) =>
        processCandidates maxToSend now saveFails
          (LogAction d2 "connection" p.id false (some e) now) rest sent
      | (d2, _, none) =>
        processCandidates maxToSend now saveFails d2 rest (sent + 1)

/-- Connector.ProcessDailyConnections: checks the daily and then the hourly
connection count against the limits and returns nil untouched on either
denial; otherwise processes the discovered profiles up to the remaining
budget. Always returns nil (the Option String error component is none on
every path, as in the Go code). -/
def ProcessDailyConnections (d : Data) (limits : LimitsConfig)
    (startOfDay now : Int) (saveFails : String → Bool) : Data × Option String :=
  let connectionsToday := GetActionCountToday d "connection" startOfDay
  let connectionsLastHour := GetActionCountLastHour d "connection" now
  if connectionsToday ≥ limits.connectionsPerDay then (d, none)
  else if connectionsLastHour ≥ limits.connectionsPerHour then (d, none)
  else
    let candidates := GetProfilesByState d ProfileState.discovered
    if candidates.length = 0 then (d, none)
    else
      let remainingDaily := limits.connectionsPerDay - connectionsToday
      let remainingHourly := limits.connectionsPerHour - connectionsLastHour
      let maxToSend := if remainingHourly < remainingDaily then remainingHourly else remainingDaily
      ((processCandidates maxToSend now saveFails d candidates 0).1, none)

/-- Lexicographic strict comparison of character lists by code point, the
order Go uses to compare strings byte-wise (identical on ASCII). -/
def charListLt : List Char → List Char → Bool
  | [], [] => false
  | [], _ :: _ => true
  | _ :: _, [] => false
  | c :: cs, d :: ds =>
    if c.val < d.val then true
    else if d.val < c.val then false
    else charListLt cs ds

/-- String comparison a <= b as Go evaluates it. -/
def strLe (a b : String) : Bool := !(charListLt b.data a.data)

/-- Stealth.isTimeInRange: current >= start && current <= end on HH:MM
strings, inclusive on both bounds. -/
def isTimeInRange (current start fin : String) : Bool :=
  strLe start current && strLe current fin

/-- Stealth.CheckBusinessHours: true when the business-hours feature is
disabled; otherwise inside business hours and, only when the break feature
is enabled, not inside the break window. -/
def CheckBusinessHours (cfg : StealthConfig) (currentTime : String) : Bool :=
  if !cfg.businessHoursEnabled then true
  else
    let inBusinessHours :=
      isTimeInRange currentTime cfg.businessHoursStart cfg.businessHoursEnd
    let inBreakTime :=
      if cfg.breakTimeEnabled then
        isTimeInRange currentTime cfg.breakTimeStart cfg.breakTimeEnd
      else false
    inBusinessHours && !inBreakTime

/-- Stealth.EnforceCooldown. The process-wide lastActionTime variable is the
first argument (none models the zero time.Time of a fresh process); the
result is the new value of that variable and the duration slept in
nanoseconds. On the first call it records now and returns without sleeping;
otherwise it sleeps for the remainder of the required spacing, then records
the (post-sleep) current time. -/
def EnforceCooldown (lastActionTime : Option Int) (now : Int)
    (minDelaySeconds : Int) : Option Int × Int :=
  match lastActionTime with
  | none => (some now, 0)
  | some last =>
    let elapsed := now - last
    let required := minDelaySeconds * nsPerSecond
    if elapsed < required then
      let remaining := required - elapsed
      (some (now + remaining), remaining)
    else (some now, 0)

/-- The smallest value of the Go type int (64-bit signed). -/
def int64Min : Int := -9223372036854775808

/-- The largest value of the Go type int (64-bit signed). -/
def int64Max : Int := 9223372036854775807

/-- Two's-complement wrap-around of 64-bit signed arithmetic, which Go
defines for overflowing int operations. -/
def wrap64 (n : Int) : Int :=
  (n - int64Min) % 18446744073709551616 + int64Min

/-- The argument max - min + 1 that randomInt passes to rng.Intn, computed
with the wrapping int arithmetic of Go. -/
def randomIntSpan (min max : Int) : Int :=
  wrap64 (wrap64 (max - min) + 1)

/-- Stealth.randomInt: returns min when the bounds are equal or inverted,
otherwise min plus a draw of rng.Intn(max - min + 1), where the argument is
computed in wrapping 64-bit int arithmetic. rng.Intn panics when its
argument is not positive — which the wrap-around can produce for a large
span — modelled as the none result; intn is the draw function of the
generator, consulted only on positive arguments. -/
def randomInt (intn : Int → Int) (min max : Int) : Option Int :=
  if min ≥ max then some min
  else if randomIntSpan min max ≤ 0 then none
  else some (wrap64 (min + intn (randomIntSpan min max)))

/-- A planar point with real coordinates (Go struct Point, float64 fields
idealized as reals). -/
structure Point where
  x : ℝ
  y : ℝ

/-- Stealth.cubicBezier: the standard cubic Bezier formula evaluated at
parameter t, returning the x and y coordinates. -/
def cubicBezier (p0 p1 p2 p3 : Point) (t : ℝ) : ℝ × ℝ :=
  let u := 1 - t
  let tt := t * t
  let uu := u * u
  let uuu := uu * u
  let ttt := tt * t
  (uuu * p0.x + 3 * uu * t * p1.x + 3 * u * tt * p2.x + ttt * p3.x,
   uuu * p0.y + 3 * uu * t * p1.y + 3 * u * tt * p2.y + ttt * p3.y)

/-- Messenger.renderTemplate: fails when the template name is unknown,
otherwise substitutes the three profile placeholders. -/
def renderTemplate (templates : List (String × String)) (templateName : String)
    (profile : Profile) : Except String String :=
  match templates.find? fun kv => kv.1 == templateName with
  | none => Except.error ("template not found: " ++ templateName)
  | some kv =>
    Except.ok (((kv.2.replace "\x7b\x7b.Name\x7d\x7d" profile.name).replace
      "\x7b\x7b.Title\x7d\x7d" profile.title).replace
      "\x7b\x7b.Company\x7d\x7d" profile.company)

/-- Messenger.SendMessage: refuses when the daily message count has reached
the limit, then when the profile state is neither accepted nor cooled_down,
then when the template cannot be rendered; the navigation and typing steps
of the Go code are pacing calls that cannot fail. On the success path it
saves the message record and appends a successful message action record.
Returns the resulting store and the error if any. -/
def SendMessage (d : Data) (limits : LimitsConfig)
    (templates : List (String × String)) (profile : Profile)
    (templateName : String) (startOfDay now : Int) (msgId : String) :
    Data × Option String :=
  let messagesToday := GetActionCountToday d "message" startOfDay
  if messagesToday ≥ limits.messagesPerDay then
    (d, some "daily message limit reached")
  else if profile.state ≠ ProfileState.accepted ∧ profile.state ≠ ProfileState.cooledDown then
    (d, some "cannot message profile in state")
  else
    match renderTemplate templates templateName profile with
    | Except.error e => (d, some ("failed to render template: " ++ e))
    | Except.ok content =>
      let message : Message := ⟨msgId, profile.id, content, now, templateName⟩
      let d2 := SaveMessage d message now
      let d3 := LogAction d2 "message" profile.id true none now
      (d3, none)

/-! Spec-side definitions, used to compare the code behaviour against the
wording of the specification. -/

/-- Modelled from the spec wording of countSince: the number of successful
records of the category with timestamp greater than or equal to the instant.
Stated for comparison with GetActionCountSince, which the code defines with
a strict comparison. -/
def countSinceGeqSpec (logs : List ActionLog) (category : String) (t : Int) : Int :=
  ((logs.filter fun l =>
    l.action == category && l.success && decide (t ≤ l.timestamp)).length : Int)

/-- Independent recount of the records GetActionCountSince accepts: one per
record of the category that is successful with timestamp strictly greater
than the instant. -/
def countSinceStrict : List ActionLog → String → Int → Int
  | [], _, _ => 0
  | l :: rest, c, t =>
    (if l.action = c ∧ l.success = true ∧ t < l.timestamp then 1 else 0) +
      countSinceStrict rest c t

/-- Modelled from the spec wording of the retention trim: keep exactly the
records whose timestamp is not older than the horizon, that is greater than
or equal to the cutoff. Stated for comparison with CleanOldLogs. -/
def trimGeqSpec (logs : List ActionLog) (cutoff : Int) : List ActionLog :=
  logs.filter fun l => decide (cutoff ≤ l.timestamp)

/-- Modelled from the spec formula for the activity gate: inside the
business window and not inside the break window, with no reference to the
break-enable flag. Stated for comparison with CheckBusinessHours. -/
def isOpenSpec (cfg : StealthConfig) (currentTime : String) : Bool :=
  if !cfg.businessHoursEnabled then true
  else
    isTimeInRange currentTime cfg.businessHoursStart cfg.businessHoursEnd &&
    !(isTimeInRange currentTime cfg.breakTimeStart cfg.breakTimeEnd)

/-- A ledger holding one successful connection record exactly at instant 0,
exercising the boundary of the time comparisons. -/
def boundaryLedger : Data := ⟨[], [], [⟨"connection", 0, "", true, none⟩], 0⟩

/-- A gate configuration with business hours enabled and a configured break
window whose enable flag is off. -/
def breakDisabledConfig : StealthConfig :=
  ⟨true, "09:00", "17:00", false, "12:00", "13:00"⟩

/-- The example gate configuration of the spec, with both features enabled. -/
def gateExampleConfig : StealthConfig :=
  ⟨true, "09:00", "17:00", true, "12:00", "13:00"⟩

/-- A freshly discovered profile used as a concrete entity. -/
def discoProfile : Profile :=
  ⟨"p1", "Ada", "Engineer", "Acme", "url-p1", ProfileState.discovered, 0,
    none, none, none, "", ""⟩

/-! Helper lemmas. -/

/-- The Boolean record filter of GetActionCountSince agrees with the
propositional description of the records it accepts. -/
lemma actionFilter_eq_decide (c : String) (t : Int) (l : ActionLog) :
    (l.action == c && l.success && decide (t < l.timestamp)) =
      decide (l.action = c ∧ l.success = true ∧ t < l.timestamp) := by
  cases hs : l.success <;>
    by_cases h1 : l.action = c <;>
    by_cases h3 : t < l.timestamp <;>
    simp [h1, h3, hs]

/-- Wrapping 64-bit arithmetic is the identity on values already inside the
int64 range. -/
lemma wrap64_eq_self (n : Int) (h1 : int64Min ≤ n) (h2 : n ≤ int64Max) :
    wrap64 n = n := by
  simp only [int64Min] at h1
  simp only [int64Max] at h2
  simp only [wrap64, int64Min]
  omega

/-- The filtered length computed by GetActionCountSince equals the
independent recount. -/
lemma countSinceStrict_eq (logs : List ActionLog) (c : String) (t : Int) :
    ((logs.filter fun l =>
      l.action == c && l.success && decide (t < l.timestamp)).length : Int) =
      countSinceStrict logs c t := by
  induction logs with
  | nil => rfl
  | cons l rest ih =>
    by_cases h : l.action = c ∧ l.success = true ∧ t < l.timestamp
    · rw [List.filter_cons_of_pos (by simp [actionFilter_eq_decide, h])]
      simp only [countSinceStrict, if_pos h, List.length_cons]
      rw [← ih]
      push_cast
      ring
    · rw [List.filter_cons_of_neg (by simp [actionFilter_eq_decide, h])]
      simp only [countSinceStrict, if_neg h, zero_add]
      exact ih

/-! Claim theorems. -/

/-- C1: when the daily or the hourly connection count has reached its limit,
ProcessDailyConnections is a pure no-op on the store — profiles, timestamps,
messages and the action ledger are returned unchanged — and the outcome is
the non-error nil result. -/
theorem processDailyConnections_deferred (d : Data) (limits : LimitsConfig)
    (startOfDay now : Int) (saveFails : String → Bool)
    (h : GetActionCountToday d "connection" startOfDay ≥ limits.connectionsPerDay ∨
      GetActionCountLastHour d "connection" now ≥ limits.connectionsPerHour) :
    ProcessDailyConnections d limits startOfDay now saveFails = (d, none) := by
  by_cases h1 : GetActionCountToday d "connection" startOfDay ≥ limits.connectionsPerDay
  · simp [ProcessDailyConnections, h1]
  · rcases h with h | h
    · exact absurd h h1
    · simp [ProcessDailyConnections, h1, h]

/-- C1 witness: with every limit at 0 the empty store is already at its
daily limit and processing defers, leaving the store untouched. -/
theorem processDailyConnections_deferred_witness :
    GetActionCountToday emptyData "connection" 0 ≥ (0 : Int) ∧
    ProcessDailyConnections emptyData ⟨0, 0, 0, 0, 0⟩ 0 0 (fun _ => false) =
      (emptyData, none) :=
  ⟨by decide,
    processDailyConnections_deferred emptyData ⟨0, 0, 0, 0, 0⟩ 0 0 (fun _ => false)
      (Or.inl (by decide))⟩

/-- C2 counterexample: a successful record whose timestamp is exactly the
queried instant is not counted by GetActionCountSince, though the claimed
greater-or-equal description counts it. -/
theorem getActionCountSince_counterexample :
    GetActionCountSince boundaryLedger "connection" 0 ≠
      countSinceGeqSpec boundaryLedger.actionLogs "connection" 0 := by
  decide

/-- C2 amended: GetActionCountSince returns exactly the number of ledger
records of the category that are successful with timestamp strictly greater
than the instant; appending a record changes the count by one exactly when
that record matches, so unsuccessful records never change it; over an empty
ledger the count is 0. -/
theorem getActionCountSince_spec (d : Data) (c : String) (t : Int) :
    GetActionCountSince d c t = countSinceStrict d.actionLogs c t ∧
    (∀ l : ActionLog,
      GetActionCountSince { d with actionLogs := d.actionLogs ++ [l] } c t =
        GetActionCountSince d c t +
          (if l.action = c ∧ l.success = true ∧ t < l.timestamp then 1 else 0)) ∧
    GetActionCountSince { d with actionLogs := [] } c t = 0 := by
  refine ⟨countSinceStrict_eq d.actionLogs c t, ?_, rfl⟩
  intro l
  have hsing : ((List.filter
      (fun r => r.action == c && r.success && decide (t < r.timestamp)) [l]).length : Int) =
      (if l.action = c ∧ l.success = true ∧ t < l.timestamp then 1 else 0) := by
    by_cases h : l.action = c ∧ l.success = true ∧ t < l.timestamp
    · rw [List.filter_cons_of_pos
        (by simp only [actionFilter_eq_decide, decide_eq_true_eq]; exact h), if_pos h]
      rfl
    · rw [List.filter_cons_of_neg
        (by simp only [actionFilter_eq_decide, decide_eq_true_eq]; exact h), if_neg h]
      rfl
  simp only [GetActionCountSince, List.filter_append, List.length_append,
    Nat.cast_add, hsing]

/-- C3: CanSendMore is true exactly when the connection count since local
midnight is strictly below the daily limit and the count since one hour ago
is strictly below the hourly limit; with either limit configured 0 it is
false for every ledger. -/
theorem canSendMore_spec (d : Data) (limits : LimitsConfig) (startOfDay now : Int) :
    (CanSendMore d limits startOfDay now = true ↔
      (GetActionCountToday d "connection" startOfDay < limits.connectionsPerDay ∧
       GetActionCountLastHour d "connection" now < limits.connectionsPerHour)) ∧
    (∀ hr ms se cd : Int, CanSendMore d ⟨0, hr, ms, se, cd⟩ startOfDay now = false) ∧
    (∀ dy ms se cd : Int, CanSendMore d ⟨dy, 0, ms, se, cd⟩ startOfDay now = false) := by
  have hnn : ∀ (a : String) (t : Int), 0 ≤ GetActionCountSince d a t :=
    fun a t => Int.natCast_nonneg _
  refine ⟨by simp [CanSendMore], ?_, ?_⟩
  · intro hr ms se cd
    simp only [CanSendMore, Bool.and_eq_false_iff, decide_eq_false_iff_not, not_lt]
    exact Or.inl (hnn _ _)
  · intro dy ms se cd
    simp only [CanSendMore, Bool.and_eq_false_iff, decide_eq_false_iff_not, not_lt]
    exact Or.inr (hnn _ _)

/-- C4 counterexample: a call with minimum 0 on a warm limiter does not
sleep, yet it moves the shared last-action timestamp from 5 to 10, so the
spacing state observable by subsequent calls is changed. -/
theorem enforceCooldown_counterexample :
    (EnforceCooldown (some 5) 10 0).2 = 0 ∧
    ¬ (EnforceCooldown (some 5) 10 0).1 = some 5 := by
  decide

/-- C4 amended: the very first call never sleeps regardless of the minimum,
and a call with a non-positive minimum does not sleep (given the clock has
not gone backwards); but every call, these included, resets the shared
last-action timestamp to the current instant. -/
theorem enforceCooldown_amended (now minSec last : Int) (h : last ≤ now)
    (hmin : minSec ≤ 0) :
    (∀ m : Int, EnforceCooldown none now m = (some now, 0)) ∧
    EnforceCooldown (some last) now minSec = (some now, 0) := by
  refine ⟨fun m => rfl, ?_⟩
  simp only [EnforceCooldown, nsPerSecond]
  rw [if_neg (by omega)]

/-- C4 witness: concrete first call and concrete zero-minimum call. -/
theorem enforceCooldown_amended_witness :
    EnforceCooldown none 10 7 = (some 10, 0) ∧
    EnforceCooldown (some 5) 10 0 = (some 10, 0) :=
  ⟨(enforceCooldown_amended 10 0 5 (by decide) (by decide)).1 7,
   (enforceCooldown_amended 10 0 5 (by decide) (by decide)).2⟩

/-- C5 counterexample: with business hours enabled, a break window
configured but the break feature disabled, CheckBusinessHours is open at
12:30 while the claimed formula, which ignores the break-enable flag, is
closed. -/
theorem checkBusinessHours_counterexample :
    CheckBusinessHours breakDisabledConfig "12:30" = true ∧
    isOpenSpec breakDisabledConfig "12:30" = false ∧
    CheckBusinessHours breakDisabledConfig "12:30" ≠
      isOpenSpec breakDisabledConfig "12:30" := by
  decide

/-- C5 amended: CheckBusinessHours equals being inside the business window
and not inside the break window with the break window considered only when
the break feature is enabled; with the business-hours feature disabled it is
true for every input; and on the example configuration it is open at 11:59
and closed at 12:30 and at 17:01. -/
theorem checkBusinessHours_amended (cfg : StealthConfig) (t : String) :
    CheckBusinessHours cfg t =
      (!cfg.businessHoursEnabled ||
        (isTimeInRange t cfg.businessHoursStart cfg.businessHoursEnd &&
         !(cfg.breakTimeEnabled &&
           isTimeInRange t cfg.breakTimeStart cfg.breakTimeEnd))) ∧
    (∀ (b : Bool) (s1 s2 s3 s4 : String),
      CheckBusinessHours ⟨false, s1, s2, b, s3, s4⟩ t = true) ∧
    CheckBusinessHours gateExampleConfig "11:59" = true ∧
    CheckBusinessHours gateExampleConfig "12:30" = false ∧
    CheckBusinessHours gateExampleConfig "17:01" = false := by
  refine ⟨?_, fun b s1 s2 s3 s4 => rfl, by decide, by decide, by decide⟩
  rcases cfg with ⟨be, bs, bf, bre, brs, brf⟩
  cases be <;> cases bre <;> simp [CheckBusinessHours]

/-- C6 counterexample: on the failing path of SendConnectionRequest the
returned error is set, but the entity has not been left unchanged: its state
is no longer discovered and its requested timestamp is set. -/
theorem sendConnectionRequest_counterexample :
    (SendConnectionRequest emptyData discoProfile 100 true).2.2 ≠ none ∧
    (SendConnectionRequest emptyData discoProfile 100 true).2.1.state ≠
      ProfileState.discovered ∧
    (SendConnectionRequest emptyData discoProfile 100 true).2.1.requestedAt ≠
      none := by
  decide

/-- C6 amended: when the send fails (its sole failure path is the profile
persistence write), the error is recoverable: the batch loop appends a
failed connection record with the failure detail and continues with the
remaining candidates without incrementing the sent counter, and the send
itself appended nothing to the ledger; but the entity is not left unchanged:
its state has been set to requested and its requested timestamp to the
current instant. -/
theorem sendConnectionRequest_failure_handling (maxToSend now : Int)
    (saveFails : String → Bool) (d : Data) (p : Profile) (rest : List Profile)
    (sent : Int) (hfail : saveFails p.id = true) (hsent : sent < maxToSend) :
    (SendConnectionRequest d p now (saveFails p.id)).2.1.state =
      ProfileState.requested ∧
    (SendConnectionRequest d p now (saveFails p.id)).2.1.requestedAt = some now ∧
    (SendConnectionRequest d p now (saveFails p.id)).2.2 =
      some "failed to update profile state" ∧
    (SendConnectionRequest d p now (saveFails p.id)).1.actionLogs = d.actionLogs ∧
    processCandidates maxToSend now saveFails d (p :: rest) sent =
      processCandidates maxToSend now saveFails
        (LogAction (SendConnectionRequest d p now (saveFails p.id)).1 "connection"
          p.id false (some "failed to update profile state") now) rest sent := by
  rw [hfail]
  refine ⟨rfl, rfl, rfl, rfl, ?_⟩
  simp only [processCandidates, hfail, if_neg (not_le.mpr hsent)]
  rfl

/-- C6 witness: a concrete failing send inside a batch of one. -/
theorem sendConnectionRequest_failure_handling_witness :
    (SendConnectionRequest emptyData discoProfile 100 true).2.1.state =
      ProfileState.requested ∧
    (SendConnectionRequest emptyData discoProfile 100 true).2.1.requestedAt =
      some 100 ∧
    (SendConnectionRequest emptyData discoProfile 100 true).2.2 =
      some "failed to update profile state" ∧
    (SendConnectionRequest emptyData discoProfile 100 true).1.actionLogs =
      emptyData.actionLogs ∧
    processCandidates 1 100 (fun _ => true) emptyData (discoProfile :: []) 0 =
      processCandidates 1 100 (fun _ => true)
        (LogAction (SendConnectionRequest emptyData discoProfile 100 true).1
          "connection" discoProfile.id false
          (some "failed to update profile state") 100) [] 0 :=
  sendConnectionRequest_failure_handling 1 100 (fun _ => true) emptyData
    discoProfile [] 0 rfl (by decide)

/-- C7 counterexample: a record whose timestamp equals the cutoff is not
older than the horizon, yet CleanOldLogs removes it, diverging from the
claimed keep-set. -/
theorem cleanOldLogs_counterexample :
    (CleanOldLogs boundaryLedger 0 1).actionLogs ≠
      trimGeqSpec boundaryLedger.actionLogs 0 := by
  decide

/-- C7 amended: the ledger is append-only — LogAction preserves every
previous record in order and appends one, and saving profiles or messages
leaves the ledger untouched — and CleanOldLogs removes exactly the records
whose timestamp is not strictly after the cutoff, keeping the strictly
newer ones unchanged and in order. -/
theorem ledger_append_only (d : Data) (a pid : String) (s : Bool)
    (e : Option String) (now cutoff : Int) (p : Profile) (m : Message) :
    (LogAction d a pid s e now).actionLogs =
      d.actionLogs ++ [⟨a, now, pid, s, e⟩] ∧
    (SaveProfile d p now).actionLogs = d.actionLogs ∧
    (SaveMessage d m now).actionLogs = d.actionLogs ∧
    (CleanOldLogs d cutoff now).actionLogs.Sublist d.actionLogs ∧
    (∀ l : ActionLog, l ∈ (CleanOldLogs d cutoff now).actionLogs ↔
      (l ∈ d.actionLogs ∧ cutoff < l.timestamp)) := by
  refine ⟨rfl, rfl, rfl, List.filter_sublist _, ?_⟩
  intro l
  simp [CleanOldLogs, List.mem_filter]

/-- C8: the cubic Bezier curve evaluates to the first control point at
parameter 0 and to the last control point at parameter 1, for all control
points. -/
theorem cubicBezier_endpoints (p0 p1 p2 p3 : Point) :
    cubicBezier p0 p1 p2 p3 0 = (p0.x, p0.y) ∧
    cubicBezier p0 p1 p2 p3 1 = (p3.x, p3.y) := by
  constructor <;> simp [cubicBezier]

/-- C9 counterexample: with the ordered bounds min = 0 and max = MaxInt64,
the wrapped argument max - min + 1 passed to rng.Intn overflows to a
non-positive value, so the call panics instead of returning a value in the
range — randomInt does fail on these bounds. -/
theorem randomInt_counterexample :
    (0 : Int) ≤ 9223372036854775807 ∧
    randomInt (fun _ => 0) 0 9223372036854775807 = none := by
  decide

/-- C9 amended: randomInt returns min without consulting the generator
whenever the bounds are equal or inverted; and for int64 bounds whose span
max - min + 1 does not overflow int64, the Intn argument is positive — so
no panic occurs — and the result is a value in the inclusive range, under
only the Intn contract on positive arguments. -/
theorem randomInt_spec (intn : Int → Int)
    (hintn : ∀ n : Int, 0 < n → 0 ≤ intn n ∧ intn n < n) (min max : Int)
    (hmin : int64Min ≤ min) (hmax : max ≤ int64Max)
    (hspan : max - min < int64Max) :
    (∀ a b : Int, a ≥ b → randomInt intn a b = some a) ∧
    (min ≤ max →
      ∃ r, randomInt intn min max = some r ∧ min ≤ r ∧ r ≤ max) ∧
    (min < max → 0 < randomIntSpan min max) := by
  have key : min < max → randomIntSpan min max = max - min + 1 := by
    intro hlt
    have hd : wrap64 (max - min) = max - min := by
      apply wrap64_eq_self
      · simp only [int64Min]; omega
      · simp only [int64Max] at hspan ⊢; omega
    have hn2 : wrap64 (max - min + 1) = max - min + 1 := by
      apply wrap64_eq_self
      · simp only [int64Min]; omega
      · simp only [int64Max] at hspan ⊢; omega
    simp only [randomIntSpan, hd, hn2]
  refine ⟨fun a b hab => by rw [randomInt, if_pos hab], ?_,
    fun hlt => by rw [key hlt]; omega⟩
  intro hle
  by_cases hge : min ≥ max
  · exact ⟨min, by rw [randomInt, if_pos hge], le_refl min, hle⟩
  · have hlt : min < max := by omega
    have hsp := key hlt
    have hpos : (0 : Int) < max - min + 1 := by omega
    obtain ⟨h0, h1r⟩ := hintn (max - min + 1) hpos
    have hres : wrap64 (min + intn (max - min + 1)) =
        min + intn (max - min + 1) := by
      apply wrap64_eq_self
      · simp only [int64Min] at hmin ⊢; omega
      · simp only [int64Max] at hmax ⊢; omega
    refine ⟨min + intn (max - min + 1), ?_, by omega, by omega⟩
    rw [randomInt, if_neg hge, hsp, if_neg (by omega), hres]

/-- C9 witness: concrete inverted bounds, and concrete ordered bounds 2 and
5 with a generator drawing 0. -/
theorem randomInt_spec_witness :
    randomInt (fun _ => 0) 5 3 = some 5 ∧
    (∃ r, randomInt (fun _ => 0) 2 5 = some r ∧ 2 ≤ r ∧ r ≤ 5) ∧
    0 < randomIntSpan 2 5 :=
  ⟨(randomInt_spec (fun _ => 0) (fun _n hn => ⟨le_refl 0, hn⟩) 2 5
      (by decide) (by decide) (by decide)).1 5 3 (by decide),
   (randomInt_spec (fun _ => 0) (fun _n hn => ⟨le_refl 0, hn⟩) 2 5
      (by decide) (by decide) (by decide)).2.1 (by decide),
   (randomInt_spec (fun _ => 0) (fun _n hn => ⟨le_refl 0, hn⟩) 2 5
      (by decide) (by decide) (by decide)).2.2 (by decide)⟩

/-- C10: SendMessage refuses every profile whose state is neither accepted
nor cooled_down — it returns an error and leaves the store untouched, so no
message record is created and no ledger record appended — and it succeeds
only for a profile in one of those two states while the daily message count
is strictly below the daily message limit. -/
theorem sendMessage_spec (d : Data) (limits : LimitsConfig)
    (templates : List (String × String)) (p : Profile) (tn : String)
    (startOfDay now : Int) (mid : String) :
    (¬ (p.state = ProfileState.accepted ∨ p.state = ProfileState.cooledDown) →
      (SendMessage d limits templates p tn startOfDay now mid).2 ≠ none ∧
      (SendMessage d limits templates p tn startOfDay now mid).1 = d) ∧
    ((SendMessage d limits templates p tn startOfDay now mid).2 = none →
      (p.state = ProfileState.accepted ∨ p.state = ProfileState.cooledDown) ∧
      GetActionCountToday d "message" startOfDay < limits.messagesPerDay) := by
  by_cases hlim : GetActionCountToday d "message" startOfDay ≥ limits.messagesPerDay
  · rw [SendMessage, if_pos hlim]
    exact ⟨fun _ => ⟨by simp, rfl⟩, fun hnone => by simp at hnone⟩
  · rw [SendMessage, if_neg hlim]
    by_cases hstate : p.state ≠ ProfileState.accepted ∧ p.state ≠ ProfileState.cooledDown
    · rw [if_pos hstate]
      refine ⟨fun _ => ⟨by simp, rfl⟩, fun hnone => by simp at hnone⟩
    · rw [if_neg hstate]
      have hst : p.state = ProfileState.accepted ∨ p.state = ProfileState.cooledDown := by
        by_contra hc
        push_neg at hc
        exact hstate ⟨hc.1, hc.2⟩
      cases hren : renderTemplate templates tn p with
      | error e =>
        exact ⟨fun _ => ⟨fun hc => Option.noConfusion hc, rfl⟩,
          fun hnone => Option.noConfusion hnone⟩
      | ok content =>
        exact ⟨fun hbad => absurd hst hbad,
          fun _ => ⟨hst, lt_of_not_ge hlim⟩⟩

/-- C10 witness: a discovered profile is refused with the store untouched. -/
theorem sendMessage_spec_witness :
    (SendMessage emptyData ⟨0, 0, 5, 0, 0⟩ [] discoProfile "follow_up" 0 100 "m1").2 ≠
      none ∧
    (SendMessage emptyData ⟨0, 0, 5, 0, 0⟩ [] discoProfile "follow_up" 0 100 "m1").1 =
      emptyData :=
  (sendMessage_spec emptyData ⟨0, 0, 5, 0, 0⟩ [] discoProfile "follow_up" 0 100
    "m1").1 (by decide)

end Subspace
